import Mathlib

/-!
Shallow embedding of the kyle-cao/jsonrpc2 repository (Go): a JSON-RPC 2.0
framework with a middleware-chain server and a pending-call client registry.
Definitions are translated from `protocol/protocol.go`, `context.go`,
`router.go`, `server.go` and `client.go`; the theorems below settle the
specification claims against them.
-/

namespace Jsonrpc2

/-- Scalar JSON values. -/
inductive JScalar where
  | snull
  | sbool (b : Bool)
  | snum (q : ℚ)
  | sstr (s : String)
  deriving DecidableEq, Repr

/-- JSON values, modelling the dynamic (`interface{}` / `json.RawMessage`)
payloads that flow through the library: params, results and error data.
Objects are flat (scalar fields), which covers every payload the repository
binds or returns. -/
inductive JVal where
  | scalar (v : JScalar)
  | jobj (fs : List (String × JScalar))
  deriving DecidableEq, Repr

/-- Shorthand for a JSON string value. -/
def JVal.jstr (s : String) : JVal := .scalar (.sstr s)

/-- Shorthand for a JSON number value. -/
def JVal.jnum (q : ℚ) : JVal := .scalar (.snum q)

/-- ErrorObject from protocol/protocol.go: `{code int, message string,
data interface{} (omitempty)}`. `data = none` models a nil/omitted field. -/
structure ErrorObject where
  code : Int
  message : String
  data : Option JVal
  deriving DecidableEq, Repr

/-- NewError from the protocol package (shown in README.md). -/
def NewError (code : Int) (message : String) (data : Option JVal) : ErrorObject :=
  { code := code, message := message, data := data }

/-- ParseError: `NewError(-32700, "Parse error", data)`. -/
def ParseError (data : Option JVal) : ErrorObject :=
  NewError (-32700) "Parse error" data

/-- InvalidRequestError: `NewError(-32600, "Invalid Request", data)`. -/
def InvalidRequestError (data : Option JVal) : ErrorObject :=
  NewError (-32600) "Invalid Request" data

/-- MethodNotFoundError: `NewError(-32601, "Method not found", data)`. -/
def MethodNotFoundError (data : Option JVal) : ErrorObject :=
  NewError (-32601) "Method not found" data

/-- InvalidParamsError: `NewError(-32602, "Invalid params", data)`. -/
def InvalidParamsError (data : Option JVal) : ErrorObject :=
  NewError (-32602) "Invalid params" data

/-- InternalError: `NewError(-32603, "Internal error", data)`. -/
def InternalError (data : Option JVal) : ErrorObject :=
  NewError (-32603) "Internal error" data

/-- Correlation-id values a caller can place in the `interface{}` id slot:
strings, the Go integer types, the Go float types, and (unsupported)
booleans. `Option IdVal` models the full slot, with `none` for Go nil. -/
inductive IdVal where
  | str (s : String)
  | int (n : Int)
  | float (q : ℚ)
  | boolId (b : Bool)
  deriving DecidableEq, Repr

/-- Rounding used by Go's `%.0f` formatting: round to the nearest integer,
ties to the even neighbour. The fractional part `q - ⌊q⌋` is compared with
1/2 in integer arithmetic: `rest = 2·(q - ⌊q⌋)·den` against `den`. -/
def roundHalfEven (q : ℚ) : Int :=
  let f : Int := ⌊q⌋
  let rest : Int := 2 * (q.num - f * (q.den : Int))
  if rest < (q.den : Int) then f
  else if (q.den : Int) < rest then f + 1
  else if f % 2 = 0 then f else f + 1

/-- Go's `fmt.Sprintf("%.0f", x)`: the rounded integer in decimal, keeping
the minus sign of a negative input even when the rounded value is zero
(Go prints "-0" for inputs in (-1/2, 0)). -/
def fmtF0 (q : ℚ) : String :=
  let n := roundHalfEven q
  if q < 0 ∧ n = 0 then "-0" else toString n

/-- idToKey from client.go: string ids verbatim, integer ids via `%d`,
float ids via `%.0f`, every other type rejected with a descriptive error. -/
def idToKey : IdVal → Except String String
  | .str s => .ok s
  | .int n => .ok (toString n)
  | .float q => .ok (fmtF0 q)
  | .boolId _ => .error "jsonrpc2: unsupported id type 'bool' for map key"

/-- Request from protocol/protocol.go: `{jsonrpc, method, params
(json.RawMessage, nil when absent), id (interface{}, nil for null/absent)}`. -/
structure Request where
  jsonrpc : String
  method : String
  params : Option JVal
  id : Option IdVal
  deriving DecidableEq, Repr

/-- Response from protocol/protocol.go: `{jsonrpc, result (omitempty),
error (*ErrorObject, omitempty), id}`. `result = none` models a nil
`interface{}` result, omitted on the wire by `omitempty`. -/
structure Response where
  jsonrpc : String
  result : Option JVal
  error : Option ErrorObject
  id : Option IdVal
  deriving DecidableEq, Repr

/-- Data handed to `writeResponse`/`createResponse` through the
`interface{}` parameter: a nil interface, a non-nil `*protocol.ErrorObject`,
or any other value. -/
inductive RespData where
  | none_
  | errObj (e : ErrorObject)
  | value (v : JVal)
  deriving DecidableEq, Repr

/-- createResponse from server.go: builds the response with `Jsonrpc = "2.0"`
and the given id; the type switch stores a `*protocol.ErrorObject` in the
error field and anything else (including nil) in the result field. -/
def createResponse (id : Option IdVal) (data : RespData) : Response :=
  match data with
  | .errObj e => { jsonrpc := "2.0", id := id, result := none, error := some e }
  | .none_ => { jsonrpc := "2.0", id := id, result := none, error := none }
  | .value v => { jsonrpc := "2.0", id := id, result := some v, error := none }

/-- Mutable per-request context state from context.go: the request, the
`responseResult` (`interface{}`, initially nil) and `responseError`
(`*ErrorObject`, initially nil) fields, and the `store` sidecar map. -/
structure CtxSt where
  request : Request
  responseResult : RespData
  responseError : Option ErrorObject
  store : List (String × JVal)
  deriving Repr

/-- Handler behaviour in the onion model of context.go / the examples: code
run before any call to `Next` (`enter`), the decision whether `Next` is
called (`advance`, evaluated on the state `enter` leaves), and the code run
after the downstream chain returns (`leave`). A handler with
`advance = false` returns without invoking the rest of the chain. -/
structure Handler where
  enter : CtxSt → CtxSt
  advance : CtxSt → Bool
  leave : CtxSt → CtxSt

/-- Next from context.go, driving a suffix of the handler chain: the cursor
moves to the next handler; if one exists it runs (its `enter`, then — when it
advances — the rest of the chain and its `leave`). Returns the final context
state together with the number of handlers that were invoked. -/
def Next : List Handler → CtxSt → CtxSt × Nat
  | [], st => (st, 0)
  | h :: rest, st =>
    let st1 := h.enter st
    if h.advance st1 then
      let (st2, n) := Next rest st1
      (h.leave st2, n + 1)
    else
      (st1, 1)

/-- Whether every handler of the list advances on the way in: each handler's
entry code runs and its advance decision, taken on the state that entry code
left, is to call `Next`. This is the condition under which `Next` carries
control past the whole list. -/
def entersThrough : List Handler → CtxSt → Bool
  | [], _ => true
  | h :: rest, st =>
    let st1 := h.enter st
    h.advance st1 && entersThrough rest st1

/-- State after the entry code of every handler in the list has run, in
order: the context as it arrives at whatever follows the list. -/
def enterAll : List Handler → CtxSt → CtxSt
  | [], st => st
  | h :: rest, st => enterAll rest (h.enter st)

/-- Unwinding of the onion: the post-`Next` code of every handler in the
list runs around the inner state, innermost (last listed) first. -/
def leaveAll : List Handler → CtxSt → CtxSt
  | [], st => st
  | h :: rest, st => h.leave (leaveAll rest st)

/-- Router state from router.go: the method-name-to-handler-chain map. -/
def Routes := List (String × List Handler)

/-- find from router.go: looks the method up in the handlers map. -/
def find (r : Routes) (method : String) : Option (List Handler) :=
  match r with
  | [] => none
  | (m, chain) :: rest => if m = method then some chain else find rest method

/-- Server state relevant to dispatch: the router and the registered global
middlewares (server.go, fields `router` and `globalMiddlewares`). -/
structure ServerModel where
  routes : Routes
  globals : List Handler

/-- Fresh context built by handleRequest: `responseResult` and
`responseError` are the Go zero values (nil), the store is empty. -/
def initCtx (req : Request) : CtxSt :=
  { request := req, responseResult := .none_, responseError := none, store := [] }

/-- handleRequest from server.go: a nil id yields a ParseError response with
a nil id; an unknown method yields a MethodNotFound error response carrying
the method name as data; otherwise the global middlewares prepended to the
route's chain are driven by `Next` from a fresh context, and the response is
built from `responseError` if it is non-nil, else from `responseResult`.
Returns the written response and the number of handlers invoked. -/
def handleRequest (s : ServerModel) (req : Request) : Response × Nat :=
  match req.id with
  | none => (createResponse none (.errObj (ParseError none)), 0)
  | some i =>
    match find s.routes req.method with
    | none =>
      (createResponse (some i) (.errObj (MethodNotFoundError (some (.jstr req.method)))), 0)
    | some chain =>
      let (st, n) := Next (s.globals ++ chain) (initCtx req)
      match st.responseError with
      | some e => (createResponse (some i) (.errObj e), n)
      | none => (createResponse (some i) st.responseResult, n)

/-- Scalar shapes a binding target can expect for one field. -/
inductive ScalarSchema where
  | tInt
  | tString
  | tBool
  deriving DecidableEq, Repr

/-- Shape of a Go binding target passed to `Bind`: a scalar, or a struct
with scalar fields (the repository's targets, e.g. ArithParams, are flat
structs of ints and strings). -/
inductive Schema where
  | prim (t : ScalarSchema)
  | obj (fields : List (String × ScalarSchema))
  deriving DecidableEq, Repr

/-- json.Unmarshal on one scalar target: JSON null is a no-op (success);
a number decodes into an int only when it has no fractional part; otherwise
a type mismatch yields a decode error message. -/
def unmarshalScalar (t : ScalarSchema) (v : JScalar) : Option String :=
  match v, t with
  | .snull, _ => none
  | .snum q, .tInt =>
    if q.den = 1 then none
    else some "json: cannot unmarshal number with fraction into int"
  | .sstr _, .tString => none
  | .sbool _, .tBool => none
  | _, _ => some "json: cannot unmarshal value into target type"

/-- Field lookup in a decoded JSON object. -/
def lookupField : List (String × JScalar) → String → Option JScalar
  | [], _ => none
  | (k, v) :: rest, name => if k = name then some v else lookupField rest name

/-- json.Unmarshal of a JSON value into a target of the given shape: unknown
object fields are ignored, missing fields are left at their zero value, and
the first structurally incompatible field (or an overall shape mismatch)
produces a decode error. -/
def unmarshal (target : Schema) (v : JVal) : Option String :=
  match target, v with
  | .prim t, .scalar s => unmarshalScalar t s
  | .prim _, .jobj _ => some "json: cannot unmarshal object into scalar target"
  | .obj _, .scalar .snull => none
  | .obj _, .scalar _ => some "json: cannot unmarshal scalar into struct target"
  | .obj fields, .jobj fs =>
    match fields with
    | [] => none
    | (name, t) :: restFields =>
      match lookupField fs name with
      | none => unmarshal (.obj restFields) (.jobj fs)
      | some fv =>
        match unmarshalScalar t fv with
        | some msg => some msg
        | none => unmarshal (.obj restFields) (.jobj fs)

/-- Error returned by `Bind`: either the `*protocol.ErrorObject` built by
`InvalidParamsError` or a raw json decode error. -/
inductive BindError where
  | invalidParams (e : ErrorObject)
  | jsonErr (msg : String)
  deriving DecidableEq, Repr

/-- Bind from context.go: when `Request.Params` is nil it returns
`protocol.InvalidParamsError("params are null")`; otherwise it returns the
result of `json.Unmarshal(Params, target)`. It reads the context and never
writes it, so the context state is returned unchanged. -/
def Bind (st : CtxSt) (target : Schema) : Option BindError × CtxSt :=
  match st.request.params with
  | none => (some (.invalidParams (InvalidParamsError (some (.jstr "params are null")))), st)
  | some p =>
    match unmarshal target p with
    | some msg => (some (.jsonErr msg), st)
    | none => (none, st)

/-- Client bookkeeping state from client.go guarded by `mutex`: the pending
map (modelled as an association list from key to a call identifier) and the
`closing`/`shutdown` flags. -/
structure ClientSt where
  pending : List (String × Nat)
  closing : Bool
  shutdown : Bool
  deriving DecidableEq, Repr

/-- Map lookup on the pending association list. -/
def lookupPending : List (String × Nat) → String → Option Nat
  | [], _ => none
  | (k, c) :: rest, key => if k = key then some c else lookupPending rest key

/-- Map insert (overwrite) on the pending association list. -/
def insertPending (m : List (String × Nat)) (key : String) (c : Nat) : List (String × Nat) :=
  match m with
  | [] => [(key, c)]
  | (k, c0) :: rest => if k = key then (key, c) :: rest else (k, c0) :: insertPending rest key c

/-- Map delete on the pending association list. -/
def erasePending : List (String × Nat) → String → List (String × Nat)
  | [], _ => []
  | (k, c) :: rest, key => if k = key then rest else (k, c) :: erasePending rest key

/-- Terminal outcome recorded on a Call when its Done channel is signalled. -/
inductive Outcome where
  | nullId
  | shutdownOrClosing
  | badIdType (msg : String)
  | transport
  | response
  deriving DecidableEq, Repr

/-- Observable events of the client engine: registering a call in the
pending map, encoding a request onto the connection, deleting a pending
entry, and sending a completion signal (`call.Done <- call`) carrying the
call's recorded outcome. -/
inductive Event where
  | register (key : String) (callIdx : Nat)
  | write (id : IdVal)
  | unregister (key : String)
  | complete (callIdx : Nat) (o : Outcome)
  deriving DecidableEq, Repr

/-- Pre-write section of `send` from client.go (under `mutex`): reject a nil
id; reject when shut down or closing; reject an unsupported id type; else
register the call in the pending map under its key. Returns the new state,
the emitted events, and the key when the call may proceed to the write. -/
def sendRegister (st : ClientSt) (id : Option IdVal) (callIdx : Nat) :
    ClientSt × List Event × Option String :=
  match id with
  | none => (st, [.complete callIdx .nullId], none)
  | some i =>
    if st.shutdown || st.closing then
      (st, [.complete callIdx .shutdownOrClosing], none)
    else
      match idToKey i with
      | .error msg => (st, [.complete callIdx (.badIdType msg)], none)
      | .ok key =>
        ({ st with pending := insertPending st.pending key callIdx },
         [.register key callIdx], some key)

/-- Failed-write cleanup of `send` from client.go: under `mutex`, the
pending entry is deleted only when it is still this very call
(`if c.pending[idKey] == call`); the transport error is then recorded and
the completion signal sent unconditionally. -/
def sendFailCleanup (st : ClientSt) (key : String) (callIdx : Nat) :
    ClientSt × List Event :=
  let st' :=
    if lookupPending st.pending key = some callIdx then
      { st with pending := erasePending st.pending key }
    else st
  (st', [.complete callIdx .transport])

/-- send from client.go, run without interference from the receive loop:
the pre-write section, then the encode of the request onto the connection
(the `write` event); when the write fails, the failed-write cleanup runs. -/
def send (st : ClientSt) (id : Option IdVal) (callIdx : Nat) (writeFails : Bool) :
    ClientSt × List Event :=
  match sendRegister st id callIdx with
  | (st1, evs, none) => (st1, evs)
  | (st1, evs, some key) =>
    match id with
    | none => (st1, evs)
    | some i =>
      if writeFails then
        let (st2, evs2) := sendFailCleanup st1 key callIdx
        (st2, evs ++ [.write i] ++ evs2)
      else
        (st1, evs ++ [.write i])

/-- One iteration of receiveLoop from client.go for a decoded response: an
id whose key cannot be derived is logged and skipped; otherwise the pending
entry for the key is looked up and deleted under `mutex`, and when a call
was found its outcome is recorded and its completion signal sent. -/
def recvDeliver (st : ClientSt) (respId : Option IdVal) : ClientSt × List Event :=
  match respId with
  | none => (st, [])
  | some i =>
    match idToKey i with
    | .error _ => (st, [])
    | .ok key =>
      match lookupPending st.pending key with
      | none => ({ st with pending := erasePending st.pending key }, [])
      | some callIdx =>
        ({ st with pending := erasePending st.pending key },
         [.complete callIdx .response])

/-- Number of completion signals delivered to the given call in a trace. -/
def countDone (callIdx : Nat) : List Event → Nat
  | [] => 0
  | .complete c _ :: rest =>
    (if c = callIdx then 1 else 0) + countDone callIdx rest
  | _ :: rest => countDone callIdx rest

/-- Result of one `listener.Accept()` call in acceptLoop. -/
inductive AcceptResult where
  | conn
  | errClosed
  | errOther
  deriving DecidableEq, Repr

/-- What acceptLoop does with one Accept result. -/
inductive AcceptAction where
  | stop
  | skip
  | track
  deriving DecidableEq, Repr

/-- acceptLoop from server.go, one iteration: `net.ErrClosed` ends the loop
(no further connection is ever accepted), any other Accept error is logged
and skipped, and a connection is tracked (`wg.Add(1)`) and handled. -/
def acceptStep : AcceptResult → AcceptAction
  | .errClosed => .stop
  | .errOther => .skip
  | .conn => .track

/-- Runtime server state seen by `Close`: whether `Listen` stored a
listener, the number of tracked in-flight units (`wg` counter: connection
loops plus per-request workers), and the error `listener.Close()` returns. -/
structure RtState where
  started : Bool
  inflight : Nat
  listenerCloseErr : Option String
  deriving DecidableEq, Repr

/-- Which arm of the `select` in `Close` fires first: the drain channel
(closed when `wg.Wait()` returns, i.e. the tracked count reached zero) or
the context's done channel with the corresponding `ctx.Err()`. -/
inductive DrainEvent where
  | drained
  | ctxDeadline
  | ctxCanceled
  deriving DecidableEq, Repr

/-- Close from server.go: fails when the server was never started; otherwise
it closes the listener and blocks on the select — returning the listener
close error when the drain completes first, and `ctx.Err()` when the
context's deadline or cancellation fires first. The tracked in-flight units
are left untouched in every branch (no forced termination). -/
def Close (st : RtState) (ev : DrainEvent) : Except String (Option String) × RtState :=
  if st.started = false then
    (.error "jsonrpc2: server not started", st)
  else
    match ev with
    | .drained => (.ok st.listenerCloseErr, st)
    | .ctxDeadline => (.error "context deadline exceeded", st)
    | .ctxCanceled => (.error "context canceled", st)

/-- Response-writing boundary at the end of handleRequest: the response is
built from `responseError` when it is set, else from `responseResult`. -/
def responseFromCtx (i : IdVal) (st : CtxSt) : Response :=
  match st.responseError with
  | some e => createResponse (some i) (.errObj e)
  | none => createResponse (some i) st.responseResult

/-- Whether a Bind outcome is an InvalidParams-class protocol error object
(an ErrorObject with code -32602). -/
def isInvalidParamsClass : Option BindError → Bool
  | some (.invalidParams e) => e.code = -32602
  | _ => false

/-- Handler that reads nothing, writes nothing and returns without calling
`Next` (a registered method whose handler sets neither result nor error). -/
def noopHandler : Handler :=
  { enter := id, advance := fun _ => false, leave := id }

/-- Logging middleware in the style of the examples: records entry in the
sidecar store, always advances, and records the unwind after downstream
handlers finish. -/
def loggerHandler : Handler :=
  { enter := fun st => { st with store := ("log", .jstr "in") :: st.store }
    advance := fun _ => true
    leave := fun st => { st with store := ("log", .jstr "out") :: st.store } }

/-- Auth middleware that denies: sets the -32001 Unauthorized error on the
context and returns without calling Next, short-circuiting the chain. -/
def authDenyHandler : Handler :=
  { enter := fun st =>
      { st with responseError := some (NewError (-32001) "Unauthorized" none) }
    advance := fun _ => false
    leave := id }

/-- Business handler that would set the result 15 — downstream of the auth
middleware, so a denial must keep it from ever running. -/
def addHandler : Handler :=
  { enter := fun st => { st with responseResult := .value (.jnum 15) }
    advance := fun _ => false
    leave := id }

/-- Server with the global logging middleware and the method "m" routed to
the auth middleware followed by the add handler. -/
def authServer : ServerModel :=
  { routes := [("m", [authDenyHandler, addHandler])], globals := [loggerHandler] }

/-- Server with the single method "m" handled by `noopHandler`. -/
def noopServer : ServerModel :=
  { routes := [("m", [noopHandler])], globals := [] }

/-- Request for method "m" with id 1 and no params. -/
def reqM1 : Request :=
  { jsonrpc := "2.0", method := "m", params := none, id := some (.int 1) }

/-- Request with a nil id. -/
def reqNullId : Request :=
  { jsonrpc := "2.0", method := "m", params := none, id := none }

/-- Fresh client state as built by Dial. -/
def initClient : ClientSt :=
  { pending := [], closing := false, shutdown := false }

/-- Interleaving in which a response for key "5" is matched by the receive
loop after `send` registered the call and attempted the write, but before
the failed-write cleanup ran: the trace of events the client emits. -/
def raceTrace : List Event :=
  let r1 := sendRegister initClient (some (.int 5)) 0
  let r2 := recvDeliver r1.1 (some (.float (mkRat 5 1)))
  let r3 := sendFailCleanup r2.1 "5" 0
  r1.2.1 ++ [Event.write (.int 5)] ++ r2.2 ++ r3.2

/-- C5: a structurally valid request whose id is nil is answered with a
ParseError (code -32700) response carrying a nil id — not treated as a
silent notification — and no handler is invoked. -/
theorem c5_nullId_parseError (s : ServerModel) (req : Request)
    (hid : req.id = none) :
    (handleRequest s req).1.id = none
    ∧ (handleRequest s req).1.error = some (ParseError none)
    ∧ (ParseError none).code = -32700
    ∧ (handleRequest s req).1.result = none
    ∧ (handleRequest s req).2 = 0 := by
  simp [handleRequest, hid, createResponse, ParseError, NewError]

/-- Witness for c5_nullId_parseError at a concrete server and request. -/
theorem c5_nullId_parseError_witness :
    (handleRequest noopServer reqNullId).1.id = none
    ∧ (handleRequest noopServer reqNullId).1.error = some (ParseError none)
    ∧ (ParseError none).code = -32700
    ∧ (handleRequest noopServer reqNullId).1.result = none
    ∧ (handleRequest noopServer reqNullId).2 = 0 :=
  c5_nullId_parseError noopServer reqNullId rfl

/-- C6: a request with a non-nil id for a method absent from the router is
answered with an error response keyed to the request's id, code -32601,
whose data is exactly the offending method name; no handler is invoked. -/
theorem c6_methodNotFound (s : ServerModel) (req : Request) (i : IdVal)
    (hid : req.id = some i) (hfind : find s.routes req.method = none) :
    (handleRequest s req).1.id = some i
    ∧ (handleRequest s req).1.error =
        some { code := -32601, message := "Method not found",
               data := some (.jstr req.method) }
    ∧ (handleRequest s req).1.result = none
    ∧ (handleRequest s req).2 = 0 := by
  simp [handleRequest, hid, hfind, createResponse, MethodNotFoundError, NewError]

/-- Witness for c6_methodNotFound: the noop server has no route "absent". -/
theorem c6_methodNotFound_witness :
    (handleRequest noopServer
        { jsonrpc := "2.0", method := "absent", params := none, id := some (.int 7) }).1.id
      = some (.int 7)
    ∧ (handleRequest noopServer
        { jsonrpc := "2.0", method := "absent", params := none, id := some (.int 7) }).1.error =
        some { code := -32601, message := "Method not found",
               data := some (.jstr "absent") }
    ∧ (handleRequest noopServer
        { jsonrpc := "2.0", method := "absent", params := none, id := some (.int 7) }).1.result = none
    ∧ (handleRequest noopServer
        { jsonrpc := "2.0", method := "absent", params := none, id := some (.int 7) }).2 = 0 :=
  c6_methodNotFound noopServer _ (.int 7) rfl rfl

/-- Short circuit at an arbitrary cursor position: when every handler of an
arbitrary prefix advances on the way in and the handler then at the cursor
returns without calling Next, the run invokes exactly the prefix and that
handler, and its result is the onion unwind of the prefix around the state
the short-circuiting handler's entry code left — nothing after the cursor is
consulted. -/
lemma next_append_shortCircuit (pre : List Handler) (h : Handler)
    (rest : List Handler) (st : CtxSt)
    (hpre : entersThrough pre st = true)
    (hadv : h.advance (h.enter (enterAll pre st)) = false) :
    Next (pre ++ h :: rest) st
      = (leaveAll pre (h.enter (enterAll pre st)), pre.length + 1) := by
  induction pre generalizing st with
  | nil =>
    simp [Next, enterAll] at hadv ⊢
    simp [hadv, leaveAll]
  | cons p ptl ih =>
    simp only [entersThrough, Bool.and_eq_true] at hpre
    simp only [enterAll] at hadv
    simp only [List.cons_append, Next, hpre.1, if_true,
      leaveAll, enterAll, List.length_cons]
    rw [List.append_eq, ih (p.enter st) hpre.2 hadv]

/-- C2: for every request context and every cursor position — the handler h
sits after an arbitrary prefix of handlers, spanning global middlewares and
earlier route handlers, that all advanced on the way in — if h returns
without calling Next, then no handler at a later index is ever invoked: the
run's outcome is the same for every continuation of the chain after h, the
invoked count is the prefix plus h only, and the final state is just the
unwind of the already-entered handlers around the state h's entry code set;
when the run is the one handleRequest performs (from the fresh context over
globals ++ route chain), the response is built solely from that state. -/
theorem c2_shortCircuit (s : ServerModel) (req : Request) (i : IdVal)
    (chain pre rest rest' : List Handler) (h : Handler) (st : CtxSt)
    (hpre : entersThrough pre st = true)
    (hadv : h.advance (h.enter (enterAll pre st)) = false)
    (hid : req.id = some i)
    (hfind : find s.routes req.method = some chain)
    (hsplit : s.globals ++ chain = pre ++ h :: rest) :
    Next (pre ++ h :: rest) st
      = (leaveAll pre (h.enter (enterAll pre st)), pre.length + 1)
    ∧ Next (pre ++ h :: rest) st = Next (pre ++ h :: rest') st
    ∧ (st = initCtx req →
        handleRequest s req
          = (responseFromCtx i (leaveAll pre (h.enter (enterAll pre st))),
             pre.length + 1)) := by
  have k1 := next_append_shortCircuit pre h rest st hpre hadv
  have k2 := next_append_shortCircuit pre h rest' st hpre hadv
  refine ⟨k1, k1.trans k2.symm, ?_⟩
  intro hst
  subst hst
  simp only [handleRequest, hid, hfind, hsplit, k1, responseFromCtx]
  cases herr :
      (leaveAll pre (h.enter (enterAll pre (initCtx req)))).responseError <;>
    simp [herr]

/-- Witness for c2_shortCircuit at the spec's auth scenario: the global
logging middleware advances, the auth middleware at index 1 denies without
advancing, and the add handler at index 2 never runs whether present or
removed. -/
theorem c2_shortCircuit_witness :
    Next ([loggerHandler] ++ authDenyHandler :: [addHandler]) (initCtx reqM1)
      = (leaveAll [loggerHandler]
          (authDenyHandler.enter (enterAll [loggerHandler] (initCtx reqM1))),
         [loggerHandler].length + 1)
    ∧ Next ([loggerHandler] ++ authDenyHandler :: [addHandler]) (initCtx reqM1)
      = Next ([loggerHandler] ++ authDenyHandler :: []) (initCtx reqM1)
    ∧ (initCtx reqM1 = initCtx reqM1 →
        handleRequest authServer reqM1
          = (responseFromCtx (.int 1)
              (leaveAll [loggerHandler]
                (authDenyHandler.enter (enterAll [loggerHandler] (initCtx reqM1)))),
             [loggerHandler].length + 1)) :=
  c2_shortCircuit authServer reqM1 (.int 1) [authDenyHandler, addHandler]
    [loggerHandler] [addHandler] [] authDenyHandler (initCtx reqM1)
    rfl rfl rfl rfl rfl

/-- C1 (amended): for a registered method and a non-nil id, the response's
id equals the request's id and result/error are never both populated;
exactly one of them is populated unless the chain left neither an error nor
a non-nil result on the context, in which case the response carries neither
(the nil result is dropped by omitempty). -/
theorem c1_responseShape (s : ServerModel) (req : Request) (i : IdVal)
    (chain : List Handler)
    (hid : req.id = some i)
    (hfind : find s.routes req.method = some chain) :
    (handleRequest s req).1.id = some i
    ∧ ¬((handleRequest s req).1.result.isSome = true
        ∧ (handleRequest s req).1.error.isSome = true)
    ∧ (((handleRequest s req).1.result = none ∧ (handleRequest s req).1.error = none)
        ↔ ((Next (s.globals ++ chain) (initCtx req)).1.responseError = none
           ∧ (Next (s.globals ++ chain) (initCtx req)).1.responseResult = .none_)) := by
  simp only [handleRequest, hid, hfind]
  cases herr : (Next (s.globals ++ chain) (initCtx req)).1.responseError with
  | some e => simp [herr, createResponse]
  | none =>
    cases hres : (Next (s.globals ++ chain) (initCtx req)).1.responseResult <;>
      simp [herr, hres, createResponse]

/-- Witness for c1_responseShape at the noop server and request reqM1. -/
theorem c1_responseShape_witness :
    (handleRequest noopServer reqM1).1.id = some (.int 1)
    ∧ ¬((handleRequest noopServer reqM1).1.result.isSome = true
        ∧ (handleRequest noopServer reqM1).1.error.isSome = true)
    ∧ (((handleRequest noopServer reqM1).1.result = none
        ∧ (handleRequest noopServer reqM1).1.error = none)
        ↔ ((Next ([] ++ [noopHandler]) (initCtx reqM1)).1.responseError = none
           ∧ (Next ([] ++ [noopHandler]) (initCtx reqM1)).1.responseResult = .none_)) :=
  c1_responseShape noopServer reqM1 (.int 1) [noopHandler] rfl rfl

/-- C1 counterexample: a registered method whose handler sets neither a
result nor an error yields a response in which neither result nor error is
populated, contradicting the claim that exactly one always is. -/
theorem c1_neither_counterexample :
    (handleRequest noopServer reqM1).1.id = some (.int 1)
    ∧ (handleRequest noopServer reqM1).1.result = none
    ∧ (handleRequest noopServer reqM1).1.error = none := by
  constructor
  · rfl
  · exact ⟨rfl, rfl⟩

instance {ε α : Type} [DecidableEq ε] [DecidableEq α] : DecidableEq (Except ε α) :=
  fun a b =>
    match a, b with
    | .ok x, .ok y =>
      if h : x = y then .isTrue (by rw [h]) else .isFalse (by intro hc; cases hc; exact h rfl)
    | .error x, .error y =>
      if h : x = y then .isTrue (by rw [h]) else .isFalse (by intro hc; cases hc; exact h rfl)
    | .ok _, .error _ => .isFalse (by intro hc; cases hc)
    | .error _, .ok _ => .isFalse (by intro hc; cases hc)

/-- Numerator of a rational equals the value times the denominator. -/
lemma num_eq_mul_den (q : ℚ) : (q.num : ℚ) = q * (q.den : ℚ) := by
  have hden : ((q.den : ℚ)) ≠ 0 := by
    exact_mod_cast q.den_ne_zero
  calc (q.num : ℚ) = (q.num : ℚ) / (q.den : ℚ) * (q.den : ℚ) :=
        (div_mul_cancel₀ _ hden).symm
    _ = q * (q.den : ℚ) := by rw [Rat.num_div_den]

/-- Values strictly within 1/2 of an integer round to that integer. -/
lemma roundHalfEven_eq_of_between (n : ℤ) (q : ℚ)
    (h1 : (n : ℚ) - 1/2 < q) (h2 : q < (n : ℚ) + 1/2) :
    roundHalfEven q = n := by
  have hden : (0:ℚ) < (q.den : ℚ) := by exact_mod_cast q.pos
  have hnum := num_eq_mul_den q
  by_cases hcase : (n : ℚ) ≤ q
  · have hf : ⌊q⌋ = n := by
      rw [Int.floor_eq_iff]
      constructor
      · exact_mod_cast hcase
      · linarith
    have hrest : 2 * (q.num - n * (q.den : Int)) < (q.den : Int) := by
      have h3 : 2 * q - 2 * (n:ℚ) - 1 < 0 := by linarith
      have h4 := mul_neg_of_neg_of_pos h3 hden
      have h5 : 2 * ((q.num : ℚ) - (n:ℚ) * (q.den : ℚ)) < (q.den : ℚ) := by
        rw [hnum]
        ring_nf
        ring_nf at h4
        linarith
      exact_mod_cast h5
    unfold roundHalfEven
    rw [hf]
    simp [hrest]
  · push_neg at hcase
    have hf : ⌊q⌋ = n - 1 := by
      rw [Int.floor_eq_iff]
      constructor
      · push_cast
        linarith
      · push_cast
        linarith
    have hrest : (q.den : Int) < 2 * (q.num - (n - 1) * (q.den : Int)) := by
      have h3 : (0:ℚ) < 2 * q - 2 * ((n:ℚ) - 1) - 1 := by linarith
      have h4 := mul_pos h3 hden
      have h5 : (q.den : ℚ) < 2 * ((q.num : ℚ) - ((n:ℚ) - 1) * (q.den : ℚ)) := by
        rw [hnum]
        ring_nf
        ring_nf at h4
        linarith
      exact_mod_cast h5
    unfold roundHalfEven
    rw [hf]
    rw [if_neg (by omega), if_pos (by omega)]
    omega

/-- Unfolding of the lower half-window bound. -/
lemma mkRat_two_mul_sub_one (n : ℤ) : mkRat (2*n - 1) 2 = (n : ℚ) - 1/2 := by
  rw [Rat.mkRat_eq_div]
  push_cast
  ring

/-- Unfolding of the upper half-window bound. -/
lemma mkRat_two_mul_add_one (n : ℤ) : mkRat (2*n + 1) 2 = (n : ℚ) + 1/2 := by
  rw [Rat.mkRat_eq_div]
  push_cast
  ring

/-- C10 (amended): for every positive integer n, the integer id n, the
string id of its decimal digits, and every float id strictly within 1/2 of
n are all mapped by idToKey to the same key — the decimal digits of n — so
distinct supplied correlation ids address the same pending-map slot. (For
n = 0 the original claim fails: negative floats near zero key to "-0".) -/
theorem c10_idToKey_collision (n : ℤ) (q : ℚ) (hn : 1 ≤ n)
    (hq1 : mkRat (2*n - 1) 2 < q) (hq2 : q < mkRat (2*n + 1) 2) :
    idToKey (.int n) = .ok (toString n)
    ∧ idToKey (.str (toString n)) = .ok (toString n)
    ∧ idToKey (.float q) = .ok (toString n) := by
  rw [mkRat_two_mul_sub_one] at hq1
  rw [mkRat_two_mul_add_one] at hq2
  have hround := roundHalfEven_eq_of_between n q hq1 hq2
  have hpos : ¬(q < 0) := by
    have h1 : (1:ℚ) ≤ (n:ℚ) := by exact_mod_cast hn
    linarith
  refine ⟨rfl, rfl, ?_⟩
  simp [idToKey, fmtF0, hround, hpos]

/-- Witness for c10_idToKey_collision at n = 5 and the float 27/5 = 5.4. -/
theorem c10_idToKey_collision_witness :
    (1 ≤ (5:ℤ))
    ∧ mkRat (2*5 - 1) 2 < mkRat 27 5
    ∧ mkRat 27 5 < mkRat (2*5 + 1) 2
    ∧ (idToKey (.int 5) = .ok (toString (5:ℤ))
       ∧ idToKey (.str (toString (5:ℤ))) = .ok (toString (5:ℤ))
       ∧ idToKey (.float (mkRat 27 5)) = .ok (toString (5:ℤ))) :=
  ⟨by decide, by decide, by decide,
   c10_idToKey_collision 5 (mkRat 27 5) (by decide) (by decide) (by decide)⟩

/-- C10 counterexample: the float -2/5 = -0.4 is strictly within 1/2 of the
nonnegative integer 0, yet idToKey sends it to "-0" while the integer id 0
and the string id "0" key to "0" — the claimed collision fails at n = 0. -/
theorem c10_zero_counterexample :
    mkRat (2*(0:ℤ) - 1) 2 < mkRat (-2) 5
    ∧ mkRat (-2) 5 < mkRat (2*(0:ℤ) + 1) 2
    ∧ idToKey (.float (mkRat (-2) 5)) = .ok "-0"
    ∧ idToKey (.int 0) = .ok "0"
    ∧ idToKey (.str "0") = .ok "0"
    ∧ ("-0" ≠ "0") := by decide

/-- C7 (amended): a call issued with a nil id or a boolean id is rejected
locally — the emitted trace is a single completion signal carrying a
descriptive error, with no register and no write event, and the client
state (in particular the pending map) is unchanged. -/
theorem c7_localReject (st : ClientSt) (callIdx : Nat) (wf : Bool)
    (id : Option IdVal) (b : Bool)
    (hopen : st.shutdown = false ∧ st.closing = false)
    (hid : id = none ∨ id = some (.boolId b)) :
    (send st id callIdx wf).1 = st
    ∧ (send st id callIdx wf).2 =
        [.complete callIdx (if id = none then Outcome.nullId
          else .badIdType "jsonrpc2: unsupported id type 'bool' for map key")] := by
  rcases hid with h | h <;> subst h <;>
    simp [send, sendRegister, hopen.1, hopen.2, idToKey]

/-- Witness for c7_localReject at a fresh client and a boolean id. -/
theorem c7_localReject_witness :
    (send initClient (some (.boolId true)) 0 false).1 = initClient
    ∧ (send initClient (some (.boolId true)) 0 false).2 =
        [.complete 0 (if (some (IdVal.boolId true) : Option IdVal) = none
          then Outcome.nullId
          else .badIdType "jsonrpc2: unsupported id type 'bool' for map key")] :=
  c7_localReject initClient 0 false (some (.boolId true)) true ⟨rfl, rfl⟩ (Or.inr rfl)

/-- C7 counterexample: a float id with a fractional part (27/5 = 5.4) is
accepted by idToKey and the call proceeds — the pending map gains an entry
and the request is written to the connection, refuting the claim that such
an id is rejected before any bytes are transmitted. -/
theorem c7_float_counterexample :
    idToKey (.float (mkRat 27 5)) = .ok "5"
    ∧ send initClient (some (.float (mkRat 27 5))) 0 false
        = ({ pending := [("5", 0)], closing := false, shutdown := false },
           [.register "5" 0, .write (.float (mkRat 27 5))]) := by decide

/-- Looking up the key just inserted finds the inserted call. -/
lemma lookupPending_insertPending (m : List (String × Nat)) (k : String) (c : Nat) :
    lookupPending (insertPending m k c) k = some c := by
  induction m with
  | nil => simp [insertPending, lookupPending]
  | cons hd tl ih =>
    by_cases h : hd.1 = k
    · simp [insertPending, lookupPending, h]
    · simp [insertPending, lookupPending, h, ih]

/-- A key absent from a pending map looks up to nothing. -/
lemma lookupPending_eq_none_of_not_mem (m : List (String × Nat)) (k : String)
    (h : k ∉ m.map Prod.fst) : lookupPending m k = none := by
  induction m with
  | nil => simp [lookupPending]
  | cons hd tl ih =>
    simp only [List.map_cons, List.mem_cons] at h
    push_neg at h
    have h1 : ¬hd.1 = k := fun hc => h.1 hc.symm
    simp [lookupPending, h1, ih h.2]

/-- Deleting the just-inserted key from a duplicate-free pending map leaves
no entry under that key. -/
lemma lookupPending_erase_insert (m : List (String × Nat)) (k : String) (c : Nat)
    (hnodup : (m.map Prod.fst).Nodup) :
    lookupPending (erasePending (insertPending m k c) k) k = none := by
  induction m with
  | nil => simp [insertPending, erasePending, lookupPending]
  | cons hd tl ih =>
    simp only [List.map_cons, List.nodup_cons] at hnodup
    by_cases h : hd.1 = k
    · have : k ∉ tl.map Prod.fst := h ▸ hnodup.1
      simp [insertPending, erasePending, h, lookupPending_eq_none_of_not_mem tl k this]
    · simp [insertPending, erasePending, lookupPending, h, ih hnodup.2]

/-- C8: on every supported id the send path registers the call in the
pending map strictly before the write is attempted (the trace begins with
the register event and only then the write); when the write fails, the
just-inserted entry is removed — no entry is left under the key — and the
transport error is delivered to the call's waiter as the final event. -/
theorem c8_registerBeforeWrite (st : ClientSt) (i : IdVal) (key : String)
    (callIdx : Nat) (wf : Bool)
    (hopen : st.shutdown = false ∧ st.closing = false)
    (hkey : idToKey i = .ok key)
    (hnodup : (st.pending.map Prod.fst).Nodup) :
    ((send st (some i) callIdx wf).2.take 2 = [.register key callIdx, .write i])
    ∧ (wf = true →
        lookupPending (send st (some i) callIdx wf).1.pending key = none
        ∧ (send st (some i) callIdx wf).2
            = [.register key callIdx, .write i, .complete callIdx .transport]) := by
  cases wf with
  | false =>
    simp [send, sendRegister, hopen.1, hopen.2, hkey]
  | true =>
    refine ⟨?_, fun _ => ⟨?_, ?_⟩⟩ <;>
      simp [send, sendRegister, sendFailCleanup, hopen.1, hopen.2, hkey,
        lookupPending_insertPending, lookupPending_erase_insert st.pending key callIdx hnodup]

/-- Witness for c8_registerBeforeWrite: a fresh client, string id "k", and
a failing write. -/
theorem c8_registerBeforeWrite_witness :
    ((send initClient (some (.str "k")) 0 true).2.take 2
      = [.register "k" 0, .write (.str "k")])
    ∧ (lookupPending (send initClient (some (.str "k")) 0 true).1.pending "k" = none
       ∧ (send initClient (some (.str "k")) 0 true).2
           = [.register "k" 0, .write (.str "k"), .complete 0 .transport]) :=
  ⟨(c8_registerBeforeWrite initClient (.str "k") "k" 0 true ⟨rfl, rfl⟩ rfl
      (by simp [initClient])).1,
   (c8_registerBeforeWrite initClient (.str "k") "k" 0 true ⟨rfl, rfl⟩ rfl
      (by simp [initClient])).2 rfl⟩

/-- C3: evaluation of the racing interleaving — the receive loop matches a
response for key "5" between the registration and the failed-write cleanup
of the same call. The guarded delete skips the map, but the completion
signal of the failure path is sent unconditionally, so call 0 receives two
completion signals, contradicting the exactly-once guarantee. -/
theorem c3_doubleSignal :
    raceTrace = [.register "5" 0, .write (.int 5),
      .complete 0 .response, .complete 0 .transport]
    ∧ countDone 0 raceTrace = 2 := by decide

/-- C4: once Listen has started the server, closing the listener stops the
accept loop; Close resolves to the listener-close error when the tracked
in-flight count has drained to zero first, and to the context's
deadline-exceeded error when the deadline fires first — in every branch
leaving the in-flight units untouched (no forced termination). -/
theorem c4_close (st : RtState) (ev : DrainEvent)
    (hstart : st.started = true)
    (hdrain : ev = .drained → st.inflight = 0) :
    acceptStep .errClosed = .stop
    ∧ (Close st ev).2 = st
    ∧ (ev = .ctxDeadline → (Close st ev).1 = .error "context deadline exceeded")
    ∧ (ev = .drained → (Close st ev).1 = .ok st.listenerCloseErr ∧ st.inflight = 0) := by
  refine ⟨rfl, ?_, ?_, ?_⟩
  · cases ev <;> simp [Close, hstart]
  · intro hev; subst hev; simp [Close, hstart]
  · intro hev; subst hev; exact ⟨by simp [Close, hstart], hdrain rfl⟩

/-- Witness for c4_close: a started server with zero in-flight units whose
drain completes first. -/
theorem c4_close_witness :
    acceptStep .errClosed = .stop
    ∧ (Close { started := true, inflight := 0, listenerCloseErr := none } .drained).2
        = { started := true, inflight := 0, listenerCloseErr := none }
    ∧ ((DrainEvent.drained = DrainEvent.ctxDeadline) →
        (Close { started := true, inflight := 0, listenerCloseErr := none } .drained).1
          = .error "context deadline exceeded")
    ∧ ((DrainEvent.drained = DrainEvent.drained) →
        (Close { started := true, inflight := 0, listenerCloseErr := none } .drained).1
          = .ok none
        ∧ (0 : Nat) = 0) :=
  c4_close { started := true, inflight := 0, listenerCloseErr := none } .drained
    rfl (fun _ => rfl)

/-- C9 (amended): Bind never touches the context (in particular the
result/error state); absent params yield the InvalidParams ErrorObject with
code -32602; present params that decode successfully yield no error; and
present but structurally incompatible params yield the raw json decode
error, not an ErrorObject. -/
theorem c9_bind (st : CtxSt) (target : Schema) :
    (Bind st target).2 = st
    ∧ (st.request.params = none →
        (Bind st target).1
          = some (.invalidParams (InvalidParamsError (some (.jstr "params are null"))))
        ∧ (InvalidParamsError (some (.jstr "params are null"))).code = -32602)
    ∧ (∀ p, st.request.params = some p → unmarshal target p = none →
        (Bind st target).1 = none)
    ∧ (∀ p msg, st.request.params = some p → unmarshal target p = some msg →
        (Bind st target).1 = some (.jsonErr msg)) := by
  refine ⟨?_, ?_, ?_, ?_⟩
  · cases hp : st.request.params with
    | none => simp [Bind, hp]
    | some p => cases hu : unmarshal target p <;> simp [Bind, hp, hu]
  · intro hp
    exact ⟨by simp [Bind, hp], rfl⟩
  · intro p hp hu
    simp [Bind, hp, hu]
  · intro p msg hp hu
    simp [Bind, hp, hu]

/-- Witness for c9_bind: a context whose request has no params. -/
theorem c9_bind_witness :
    (Bind (initCtx reqM1) (.prim .tInt)).2 = initCtx reqM1
    ∧ (Bind (initCtx reqM1) (.prim .tInt)).1
        = some (.invalidParams (InvalidParamsError (some (.jstr "params are null"))))
    ∧ (InvalidParamsError (some (.jstr "params are null"))).code = -32602 :=
  ⟨(c9_bind (initCtx reqM1) (.prim .tInt)).1,
   ((c9_bind (initCtx reqM1) (.prim .tInt)).2.1 rfl).1,
   ((c9_bind (initCtx reqM1) (.prim .tInt)).2.1 rfl).2⟩

/-- Request whose params are present but are a bare string. -/
def reqBadParams : Request :=
  { jsonrpc := "2.0", method := "m", params := some (.jstr "x"), id := some (.int 1) }

/-- C9 counterexample: params present but structurally incompatible with an
int target make Bind fail with a raw json decode error — not an
InvalidParams-class (-32602) ErrorObject, refuting the claim for the
incompatible case. -/
theorem c9_incompatible_counterexample :
    (Bind (initCtx reqBadParams) (.prim .tInt)).1
      = some (.jsonErr "json: cannot unmarshal value into target type")
    ∧ isInvalidParamsClass (Bind (initCtx reqBadParams) (.prim .tInt)).1 = false := by
  constructor
  · simp [Bind, initCtx, reqBadParams, unmarshal, JVal.jstr, unmarshalScalar]
  · simp [Bind, initCtx, reqBadParams, unmarshal, JVal.jstr, unmarshalScalar,
      isInvalidParamsClass]

end Jsonrpc2
